import Mathlib

/-!
Shallow embedding of `ipamd/rpc_handler.go` from gaorong/amazon-vpc-cni-k8s.

The file models the gRPC request handlers `server.AddNetwork` and
`server.DelNetwork`, the bring-up function `IPAMContext.RunRPCHandler`, and the
signal-driven `IPAMContext.shutdownListener`, together with the Prometheus
counters `addIPCnt` (unlabeled) and `delIPCnt` (labeled by reason).

External collaborators (the datastore, the AWS client and the network client)
are modelled as record fields holding their observable behaviour; Go errors
become `Option` values where `none` is Go `nil`.
-/

/-- Mirror of `k8sapi.K8SPodInfo` as used in `rpc_handler.go`: the pod identity
fields passed to the datastore. A missing `Container` field in the Go struct
literal is the zero value `""`. -/
structure K8SPodInfo where
  Name : String
  Namespace : String
  Container : String
deriving DecidableEq

/-- Datastore errors, distinguishing the sentinel `datastore.ErrUnknownPod`
from every other error value (compared by `==` in the Go code). -/
inductive DSErr where
  | ErrUnknownPod : DSErr
  | otherError : String → DSErr
deriving DecidableEq

/-- Result triple of `AssignPodIPv4Address` / `UnassignPodIPv4Address`:
`(addr string, deviceNumber int, err error)`. `err = none` is Go `nil`. -/
structure AssignResult where
  addr : String
  deviceNumber : Int
  err : Option DSErr
deriving DecidableEq

/-- Observable behaviour of `c.dataStore`: the two methods the handlers call. -/
structure DataStore where
  assignPodIPv4Address : K8SPodInfo → AssignResult
  unassignPodIPv4Address : K8SPodInfo → AssignResult

/-- Observable behaviour of `c.awsClient`: `GetVPCIPv4CIDRs` returns the base
VPC CIDR strings in order (the Go slice of pointers, dereferenced). -/
structure AWSClient where
  getVPCIPv4CIDRs : List String

/-- Observable behaviour of `c.networkClient`: the SNAT policy queries. -/
structure NetworkAPIs where
  useExternalSNAT : Bool
  getExcludeSNATCIDRs : List String

/-- The slice of `IPAMContext` that `server` reads in the two handlers. -/
structure IPAMContext where
  dataStore : DataStore
  awsClient : AWSClient
  networkClient : NetworkAPIs

/-- Mirror of `pb.AddNetworkRequest` fields read by the handler. -/
structure AddNetworkRequest where
  Netns : String
  K8S_POD_NAME : String
  K8S_POD_NAMESPACE : String
  K8S_POD_INFRA_CONTAINER_ID : String
  IfName : String
deriving DecidableEq

/-- Mirror of `pb.AddNetworkReply`. -/
structure AddNetworkReply where
  Success : Bool
  IPv4Addr : String
  IPv4Subnet : String
  DeviceNumber : Int
  UseExternalSNAT : Bool
  VPCcidrs : List String
deriving DecidableEq

/-- Mirror of `pb.DelNetworkRequest` fields read by the handler. -/
structure DelNetworkRequest where
  K8S_POD_NAME : String
  K8S_POD_NAMESPACE : String
  K8S_POD_INFRA_CONTAINER_ID : String
  IPv4Addr : String
  Reason : String
deriving DecidableEq

/-- Mirror of `pb.DelNetworkReply`. -/
structure DelNetworkReply where
  Success : Bool
  IPv4Addr : String
  DeviceNumber : Int
deriving DecidableEq

/-- Prometheus counters touched by the handlers: `addIPCnt` is an unlabeled
counter, `delIPCnt` is a counter vector labeled by `reason`. -/
structure Metrics where
  addIPCnt : Nat
  delIPCnt : String → Nat

/-- Go `int32(x)` conversion applied to a (mathematical-integer model of a)
Go `int`: two's-complement wrap into `[-2^31, 2^31)`. -/
def toInt32 (x : Int) : Int :=
  (x + 2 ^ 31) % 2 ^ 32 - 2 ^ 31

/-- Value returned by the `AddNetwork` handler: the reply pointer is always
non-nil in the Go code, so the reply is carried directly; `grpcErr` is the
second return value (the protocol-level error), and `metrics` the counter
state after the handler's side effects. -/
structure AddNetworkResult where
  reply : AddNetworkReply
  grpcErr : Option String
  metrics : Metrics

/-- Value returned by the `DelNetwork` handler, plus `unassignCalls`: the
sequence of identities passed to `dataStore.UnassignPodIPv4Address`, in call
order, recorded so that the call pattern is provable. -/
structure DelNetworkResult where
  reply : DelNetworkReply
  grpcErr : Option String
  metrics : Metrics
  unassignCalls : List K8SPodInfo

/-- The three-field identity built from an `AddNetworkRequest`. -/
def addPodInfo (req : AddNetworkRequest) : K8SPodInfo :=
  { Name := req.K8S_POD_NAME
    Namespace := req.K8S_POD_NAMESPACE
    Container := req.K8S_POD_INFRA_CONTAINER_ID }

/-- The full three-field identity built from a `DelNetworkRequest`. -/
def delPodInfoFull (req : DelNetworkRequest) : K8SPodInfo :=
  { Name := req.K8S_POD_NAME
    Namespace := req.K8S_POD_NAMESPACE
    Container := req.K8S_POD_INFRA_CONTAINER_ID }

/-- The two-field fallback identity of the retry in `DelNetwork`: the Go
struct literal omits `Container`, so it is the zero value `""`. -/
def delPodInfoFallback (req : DelNetworkRequest) : K8SPodInfo :=
  { Name := req.K8S_POD_NAME
    Namespace := req.K8S_POD_NAMESPACE
    Container := "" }

/-- Embedding of `server.AddNetwork`. Line by line: call
`AssignPodIPv4Address` on the three-field identity; build `pbVPCcidrs` by
appending each VPC CIDR in a loop; if `!useExternalSNAT`, append each SNAT
exclusion CIDR in a second loop; build the reply with
`Success: err == nil`, `IPv4Subnet: ""`, `DeviceNumber: int32(deviceNumber)`;
increment `addIPCnt`; return `(&resp, nil)`. -/
def server.AddNetwork (s : IPAMContext) (req : AddNetworkRequest)
    (m : Metrics) : AddNetworkResult :=
  let r := s.dataStore.assignPodIPv4Address (addPodInfo req)
  let pbVPCcidrs : List String :=
    s.awsClient.getVPCIPv4CIDRs.foldl (fun acc cidr => acc ++ [cidr]) []
  let useExternalSNAT := s.networkClient.useExternalSNAT
  let pbVPCcidrs : List String :=
    if !useExternalSNAT then
      s.networkClient.getExcludeSNATCIDRs.foldl
        (fun acc cidr => acc ++ [cidr]) pbVPCcidrs
    else pbVPCcidrs
  let resp : AddNetworkReply :=
    { Success := r.err.isNone
      IPv4Addr := r.addr
      IPv4Subnet := ""
      DeviceNumber := toInt32 r.deviceNumber
      UseExternalSNAT := useExternalSNAT
      VPCcidrs := pbVPCcidrs }
  { reply := resp
    grpcErr := none
    metrics :=
      { addIPCnt := m.addIPCnt + 1
        delIPCnt := m.delIPCnt } }

/-- Embedding of `server.DelNetwork`. Line by line: increment
`delIPCnt` at label `reason`; call `UnassignPodIPv4Address` on the full
three-field identity; if `err != nil && err == datastore.ErrUnknownPod`, call
it again on the two-field fallback identity; `success` is `true` unless the
final `err != nil && err != datastore.ErrUnknownPod`; return the reply with
`int32(deviceNumber)` and a nil protocol error. -/
def server.DelNetwork (s : IPAMContext) (req : DelNetworkRequest)
    (m : Metrics) : DelNetworkResult :=
  let m1 : Metrics :=
    { addIPCnt := m.addIPCnt
      delIPCnt := fun r =>
        if r = req.Reason then m.delIPCnt r + 1 else m.delIPCnt r }
  let r1 := s.dataStore.unassignPodIPv4Address (delPodInfoFull req)
  let rF : AssignResult :=
    if r1.err ≠ none ∧ r1.err = some DSErr.ErrUnknownPod then
      s.dataStore.unassignPodIPv4Address (delPodInfoFallback req)
    else r1
  let calls : List K8SPodInfo :=
    if r1.err ≠ none ∧ r1.err = some DSErr.ErrUnknownPod then
      [delPodInfoFull req, delPodInfoFallback req]
    else [delPodInfoFull req]
  let success : Bool :=
    if rF.err ≠ none ∧ rF.err ≠ some DSErr.ErrUnknownPod then false else true
  { reply :=
      { Success := success
        IPv4Addr := rF.addr
        DeviceNumber := toInt32 rF.deviceNumber }
    grpcErr := none
    metrics := m1
    unassignCalls := calls }

/-- Environment of `RunRPCHandler`: the outcome of `net.Listen` on the fixed
loopback address and the outcome of `grpc.Server.Serve` (which blocks until
the server stops); `none` is Go `nil`, `some e` an error with message `e`. -/
structure RPCEnv where
  listenErr : Option String
  serveErr : Option String
deriving DecidableEq

/-- Embedding of `IPAMContext.RunRPCHandler`. Listen on the gRPC address and
return the wrapped error if that fails; otherwise register the backend
server, the health server (static serving status) and reflection, spawn
`shutdownListener`, serve, and return the wrapped error if serving fails,
else `nil`. Only the error flow is modelled; the registrations mutate no
state visible to the claims. The Go wrap messages, including the `gPRC`
typo of the second one, are reproduced. -/
def IPAMContext.RunRPCHandler (c : IPAMContext) (env : RPCEnv) :
    Option String :=
  match env.listenErr with
  | some e => some ("ipamd: failed to listen to gRPC port: " ++ e)
  | none =>
    match env.serveErr with
    | some e => some ("ipamd: failed to start server on gPRC port: " ++ e)
    | none => none

/-- OS signals as delivered to the process; `shutdownListener` subscribes its
channel to `SIGINT` and `SIGTERM` only. -/
inductive OSSignal where
  | SIGINT : OSSignal
  | SIGTERM : OSSignal
  | otherSignal : Nat → OSSignal
deriving DecidableEq

/-- Whether `signal.Notify` was called for this signal in `shutdownListener`:
true exactly for `SIGINT` and `SIGTERM`, so only these ever reach the
channel the listener blocks on. -/
def notifiedSignal : OSSignal → Bool
  | OSSignal.SIGINT => true
  | OSSignal.SIGTERM => true
  | OSSignal.otherSignal _ => false

/-- State of the gRPC server the shutdown listener holds a reference to:
whether it is serving, and the identifiers of in-flight handler calls. -/
structure GrpcServerState where
  serving : Bool
  inFlightCalls : List Nat
deriving DecidableEq

/-- Process state relevant to the shutdown claims: `listenerArmed` is true
while the `shutdownListener` goroutine is still blocked on `<-sig` (it
receives exactly once and then returns, so it never re-arms),
`terminating` is the Termination State flag, `server` the gRPC server the
listener holds but never touches. -/
structure ProcessState where
  listenerArmed : Bool
  terminating : Bool
  server : GrpcServerState
deriving DecidableEq

/-- Modelled from the spec: `IPAMContext.setTerminating` is declared outside
`rpc_handler.go` (it is only called there); per spec §4.2 the
running-to-terminating transition sets the Termination State to `true` and
mutates no other component state. -/
def setTerminating (st : ProcessState) : ProcessState :=
  { st with terminating := true }

/-- One delivered signal processed against the process state, embedding
`IPAMContext.shutdownListener`: while the listener is blocked on `<-sig`, a
signal registered by `signal.Notify` (SIGINT or SIGTERM) is received,
`c.setTerminating()` runs, and the goroutine returns (so the listener is no
longer armed). Any other signal never reaches the channel; once the
goroutine has returned, no signal is observed through it. -/
def shutdownStep (st : ProcessState) (sig : OSSignal) : ProcessState :=
  if st.listenerArmed && notifiedSignal sig then
    { setTerminating st with listenerArmed := false }
  else st

/-- The process state after a sequence of delivered signals. -/
def runSignals (st : ProcessState) (sigs : List OSSignal) : ProcessState :=
  sigs.foldl shutdownStep st

/-- Process state right after `go c.shutdownListener(s)` is spawned: the
listener is armed, the Termination State is still `false`, and the gRPC
server is in state `srv`. -/
def initProcess (srv : GrpcServerState) : ProcessState :=
  { listenerArmed := true
    terminating := false
    server := srv }

/-- The final unassign attempt of a Detach: the fallback call's result when
the first call returned the unknown-pod sentinel, the first call's result
otherwise. -/
def delNetworkFinalAttempt (s : IPAMContext) (req : DelNetworkRequest) :
    AssignResult :=
  let r1 := s.dataStore.unassignPodIPv4Address (delPodInfoFull req)
  if r1.err = some DSErr.ErrUnknownPod then
    s.dataStore.unassignPodIPv4Address (delPodInfoFallback req)
  else r1

/-- Concrete datastore of spec §8 scenario 6: assign succeeds with address
`10.0.1.5` on device 1; unassign reports an unknown pod. -/
def storeEx : DataStore :=
  { assignPodIPv4Address := fun _ =>
      { addr := "10.0.1.5", deviceNumber := 1, err := none }
    unassignPodIPv4Address := fun _ =>
      { addr := "", deviceNumber := 0, err := some DSErr.ErrUnknownPod } }

/-- Concrete context of spec §8 scenario 6: one base VPC CIDR, local SNAT
with one exclusion CIDR. -/
def ctxEx : IPAMContext :=
  { dataStore := storeEx
    awsClient := { getVPCIPv4CIDRs := ["10.0.0.0/16"] }
    networkClient :=
      { useExternalSNAT := false
        getExcludeSNATCIDRs := ["192.168.0.0/16"] } }

/-- Concrete Attach request of spec §8 scenario 6. -/
def reqAEx : AddNetworkRequest :=
  { Netns := "/proc/1234/ns/net"
    K8S_POD_NAME := "pod-a"
    K8S_POD_NAMESPACE := "ns1"
    K8S_POD_INFRA_CONTAINER_ID := "c1"
    IfName := "eth0" }

/-- Concrete Detach request used by the witnesses. -/
def reqDEx : DelNetworkRequest :=
  { K8S_POD_NAME := "pod-a"
    K8S_POD_NAMESPACE := "ns1"
    K8S_POD_INFRA_CONTAINER_ID := "c1"
    IPv4Addr := "10.0.1.5"
    Reason := "PodDeleted" }

/-- Zeroed counters used by the witnesses. -/
def metricsEx : Metrics :=
  { addIPCnt := 0, delIPCnt := fun _ => 0 }

/-- Concrete gRPC server state used by the shutdown witnesses. -/
def srvEx : GrpcServerState :=
  { serving := true, inFlightCalls := [7, 9] }

theorem foldl_append_singleton (l acc : List String) :
    l.foldl (fun a c => a ++ [c]) acc = acc ++ l := by
  induction l generalizing acc with
  | nil => simp
  | cons x xs ih => simp [List.foldl, ih]

theorem toInt32_of_lt (x : Int) (h0 : 0 ≤ x) (h1 : x < 2 ^ 31) :
    toInt32 x = x := by
  unfold toInt32
  omega

theorem addNetwork_vpccidrs_eq (s : IPAMContext) (req : AddNetworkRequest)
    (m : Metrics) :
    (server.AddNetwork s req m).reply.VPCcidrs =
      s.awsClient.getVPCIPv4CIDRs ++
        (if s.networkClient.useExternalSNAT = true then []
         else s.networkClient.getExcludeSNATCIDRs) := by
  unfold server.AddNetwork
  cases h : s.networkClient.useExternalSNAT <;>
    simp [h, foldl_append_singleton]

/-- C3: the reply's `VPCcidrs` sequence is the base VPC CIDRs first, in
provider order; when SNAT is not externally managed the exclusion CIDRs are
appended strictly after all base CIDRs, in provider order; when SNAT is
externally managed no exclusion CIDRs appear. -/
theorem addNetwork_cidr_order (s : IPAMContext) (req : AddNetworkRequest)
    (m : Metrics) :
    ((server.AddNetwork s req m).reply.VPCcidrs =
        s.awsClient.getVPCIPv4CIDRs ++
          (if s.networkClient.useExternalSNAT = true then []
           else s.networkClient.getExcludeSNATCIDRs)) ∧
    (s.networkClient.useExternalSNAT = false →
      (server.AddNetwork s req m).reply.VPCcidrs =
        s.awsClient.getVPCIPv4CIDRs ++
          s.networkClient.getExcludeSNATCIDRs) ∧
    (s.networkClient.useExternalSNAT = true →
      (server.AddNetwork s req m).reply.VPCcidrs =
        s.awsClient.getVPCIPv4CIDRs) := by
  refine ⟨addNetwork_vpccidrs_eq s req m, ?_, ?_⟩ <;> intro h <;>
    simp [addNetwork_vpccidrs_eq s req m, h]

/-- Witness for C3 on the concrete scenario context, both SNAT settings. -/
theorem addNetwork_cidr_order_witness :
    (server.AddNetwork ctxEx reqAEx metricsEx).reply.VPCcidrs =
      ["10.0.0.0/16", "192.168.0.0/16"] := by
  have h := addNetwork_cidr_order ctxEx reqAEx metricsEx
  have h2 := h.2.1 rfl
  simpa [ctxEx] using h2

/-- C4: `AddNetwork` always returns a nil protocol-level error together with
a well-formed reply: `Success` mirrors whether the assign call returned no
error, and the reply carries the assigned address, the device number (as an
int32, hence exactly when it fits), the external-SNAT flag and the ordered
CIDR sequence. -/
theorem addNetwork_reply_total (s : IPAMContext) (req : AddNetworkRequest)
    (m : Metrics) :
    (server.AddNetwork s req m).grpcErr = none ∧
    (server.AddNetwork s req m).reply.Success =
      (s.dataStore.assignPodIPv4Address (addPodInfo req)).err.isNone ∧
    (server.AddNetwork s req m).reply.IPv4Addr =
      (s.dataStore.assignPodIPv4Address (addPodInfo req)).addr ∧
    (server.AddNetwork s req m).reply.DeviceNumber =
      toInt32 (s.dataStore.assignPodIPv4Address (addPodInfo req)).deviceNumber ∧
    (0 ≤ (s.dataStore.assignPodIPv4Address (addPodInfo req)).deviceNumber →
      (s.dataStore.assignPodIPv4Address (addPodInfo req)).deviceNumber
          < 2 ^ 31 →
      (server.AddNetwork s req m).reply.DeviceNumber =
        (s.dataStore.assignPodIPv4Address (addPodInfo req)).deviceNumber) ∧
    (server.AddNetwork s req m).reply.UseExternalSNAT =
      s.networkClient.useExternalSNAT ∧
    (server.AddNetwork s req m).reply.VPCcidrs =
      s.awsClient.getVPCIPv4CIDRs ++
        (if s.networkClient.useExternalSNAT = true then []
         else s.networkClient.getExcludeSNATCIDRs) := by
  refine ⟨rfl, rfl, rfl, rfl, ?_, rfl, addNetwork_vpccidrs_eq s req m⟩
  intro h0 h1
  show toInt32 _ = _
  exact toInt32_of_lt _ h0 h1

/-- Witness for C4 on the concrete scenario, including the in-range device
number conjunct. -/
theorem addNetwork_reply_total_witness :
    (server.AddNetwork ctxEx reqAEx metricsEx).grpcErr = none ∧
    (server.AddNetwork ctxEx reqAEx metricsEx).reply.DeviceNumber =
      (ctxEx.dataStore.assignPodIPv4Address (addPodInfo reqAEx)).deviceNumber := by
  have h := addNetwork_reply_total ctxEx reqAEx metricsEx
  exact ⟨h.1, h.2.2.2.2.1 (by decide) (by decide)⟩

/-- C8: the concrete Attach scenario of spec §8: store returns
`10.0.1.5` on device 1 with no error, one base CIDR, local SNAT with one
exclusion CIDR, and the reply is exactly the expected record. -/
theorem addNetwork_concrete_scenario :
    (server.AddNetwork ctxEx reqAEx metricsEx).reply =
      { Success := true
        IPv4Addr := "10.0.1.5"
        IPv4Subnet := ""
        DeviceNumber := 1
        UseExternalSNAT := false
        VPCcidrs := ["10.0.0.0/16", "192.168.0.0/16"] } := by
  decide

/-- C10: the reply's `IPv4Subnet` is always the empty string, and the CIDR
sequence and external-SNAT flag are computed from the network clients alone,
independently of the datastore outcome, so they are present even when the
assign call failed. -/
theorem addNetwork_subnet_empty_uncond (s : IPAMContext)
    (req : AddNetworkRequest) (m : Metrics) :
    (server.AddNetwork s req m).reply.IPv4Subnet = "" ∧
    (server.AddNetwork s req m).reply.VPCcidrs =
      s.awsClient.getVPCIPv4CIDRs ++
        (if s.networkClient.useExternalSNAT = true then []
         else s.networkClient.getExcludeSNATCIDRs) ∧
    (server.AddNetwork s req m).reply.UseExternalSNAT =
      s.networkClient.useExternalSNAT ∧
    (∀ ds2 : DataStore,
      (server.AddNetwork { s with dataStore := ds2 } req m).reply.VPCcidrs =
        (server.AddNetwork s req m).reply.VPCcidrs ∧
      (server.AddNetwork
          { s with dataStore := ds2 } req m).reply.UseExternalSNAT =
        (server.AddNetwork s req m).reply.UseExternalSNAT ∧
      (server.AddNetwork { s with dataStore := ds2 } req m).reply.IPv4Subnet =
        (server.AddNetwork s req m).reply.IPv4Subnet) := by
  refine ⟨rfl, addNetwork_vpccidrs_eq s req m, rfl, ?_⟩
  intro ds2
  refine ⟨?_, rfl, rfl⟩
  have h1 := addNetwork_vpccidrs_eq { s with dataStore := ds2 } req m
  have h2 := addNetwork_vpccidrs_eq s req m
  simp only [h1, h2]

theorem delNetwork_success_eq (s : IPAMContext) (req : DelNetworkRequest)
    (m : Metrics) :
    (server.DelNetwork s req m).reply.Success =
      if (delNetworkFinalAttempt s req).err ≠ none ∧
          (delNetworkFinalAttempt s req).err ≠ some DSErr.ErrUnknownPod
      then false else true := by
  unfold server.DelNetwork delNetworkFinalAttempt
  by_cases h1 : (s.dataStore.unassignPodIPv4Address (delPodInfoFull req)).err =
      some DSErr.ErrUnknownPod <;>
    simp [h1]

theorem success_flag_false_iff (o : Option DSErr) :
    ((if o ≠ none ∧ o ≠ some DSErr.ErrUnknownPod then false else true)
        = false ↔
      ∃ e, o = some e ∧ e ≠ DSErr.ErrUnknownPod) := by
  cases o with
  | none => simp
  | some e => by_cases he : e = DSErr.ErrUnknownPod <;> simp [he]

/-- C1: `DelNetwork` first calls unassign with the full three-field identity;
if and only if that call returns the unknown-pod error it calls unassign
exactly once more with the two-field fallback identity, so at most two
unassign calls occur. -/
theorem delNetwork_call_pattern (s : IPAMContext) (req : DelNetworkRequest)
    (m : Metrics) :
    ((server.DelNetwork s req m).unassignCalls =
      if (s.dataStore.unassignPodIPv4Address (delPodInfoFull req)).err =
          some DSErr.ErrUnknownPod
      then [delPodInfoFull req, delPodInfoFallback req]
      else [delPodInfoFull req]) ∧
    (server.DelNetwork s req m).unassignCalls.length ≤ 2 := by
  unfold server.DelNetwork
  by_cases h1 : (s.dataStore.unassignPodIPv4Address (delPodInfoFull req)).err =
      some DSErr.ErrUnknownPod <;>
    simp [h1]

/-- C2: the Detach reply's `Success` is `false` exactly when the final
unassign attempt (the fallback when it ran, the first call otherwise)
returned an error other than the unknown-pod kind; in particular when both
attempts report an unknown pod the reply is successful. -/
theorem delNetwork_success_contract (s : IPAMContext)
    (req : DelNetworkRequest) (m : Metrics) :
    ((server.DelNetwork s req m).reply.Success = false ↔
      ∃ e, (delNetworkFinalAttempt s req).err = some e ∧
        e ≠ DSErr.ErrUnknownPod) ∧
    ((s.dataStore.unassignPodIPv4Address (delPodInfoFull req)).err =
        some DSErr.ErrUnknownPod →
      (s.dataStore.unassignPodIPv4Address (delPodInfoFallback req)).err =
        some DSErr.ErrUnknownPod →
      (server.DelNetwork s req m).reply.Success = true) := by
  constructor
  · rw [delNetwork_success_eq s req m]
    exact success_flag_false_iff _
  · intro h1 h2
    rw [delNetwork_success_eq s req m]
    unfold delNetworkFinalAttempt
    simp [h1, h2]

/-- Witness for C2: on the concrete context whose store knows no pod at all,
the Detach reply is nevertheless successful. -/
theorem delNetwork_success_contract_witness :
    (server.DelNetwork ctxEx reqDEx metricsEx).reply.Success = true := by
  have h := delNetwork_success_contract ctxEx reqDEx metricsEx
  exact h.2 rfl rfl

/-- C5: `AddNetwork` increments the unlabeled attach counter exactly once
and leaves the release counter alone, whatever the assign outcome;
`DelNetwork` increments the release counter exactly once at the label equal
to the request's `Reason`, leaves every other label and the attach counter
alone, whatever the unassign outcome. -/
theorem handlers_increment_counters (s : IPAMContext)
    (reqA : AddNetworkRequest) (reqD : DelNetworkRequest) (m : Metrics) :
    (server.AddNetwork s reqA m).metrics.addIPCnt = m.addIPCnt + 1 ∧
    (∀ r, (server.AddNetwork s reqA m).metrics.delIPCnt r = m.delIPCnt r) ∧
    (server.DelNetwork s reqD m).metrics.delIPCnt reqD.Reason =
      m.delIPCnt reqD.Reason + 1 ∧
    (∀ r, r ≠ reqD.Reason →
      (server.DelNetwork s reqD m).metrics.delIPCnt r = m.delIPCnt r) ∧
    (server.DelNetwork s reqD m).metrics.addIPCnt = m.addIPCnt := by
  refine ⟨rfl, fun r => rfl, ?_, ?_, rfl⟩
  · simp [server.DelNetwork]
  · intro r hr
    simp [server.DelNetwork, hr]

/-- Witness for C5 on the concrete context: the labeled counter moves at the
request's reason label and only there. -/
theorem handlers_increment_counters_witness :
    (server.AddNetwork ctxEx reqAEx metricsEx).metrics.addIPCnt =
      metricsEx.addIPCnt + 1 ∧
    (server.DelNetwork ctxEx reqDEx metricsEx).metrics.delIPCnt "PodDeleted" =
      metricsEx.delIPCnt "PodDeleted" + 1 ∧
    (server.DelNetwork ctxEx reqDEx metricsEx).metrics.delIPCnt "other" =
      metricsEx.delIPCnt "other" := by
  have h := handlers_increment_counters ctxEx reqAEx reqDEx metricsEx
  exact ⟨h.1, h.2.2.1, h.2.2.2.1 "other" (by decide)⟩

/-- C9: `RunRPCHandler` returns a nil error exactly when both the listen
step and the serve step succeed — so bring-up failures are the only errors
it propagates — while the two handlers always return a nil protocol-level
error. -/
theorem rpc_error_class (c : IPAMContext) (env : RPCEnv) (s : IPAMContext)
    (reqA : AddNetworkRequest) (reqD : DelNetworkRequest) (m : Metrics) :
    (c.RunRPCHandler env = none ↔
      env.listenErr = none ∧ env.serveErr = none) ∧
    (server.AddNetwork s reqA m).grpcErr = none ∧
    (server.DelNetwork s reqD m).grpcErr = none := by
  refine ⟨?_, rfl, rfl⟩
  obtain ⟨le, se⟩ := env
  cases le <;> cases se <;> simp [IPAMContext.RunRPCHandler]

/-- Witness for C9: with a clean environment the bring-up returns no error,
and with a failing listen step it returns one. -/
theorem rpc_error_class_witness :
    ctxEx.RunRPCHandler { listenErr := none, serveErr := none } = none := by
  have h := rpc_error_class ctxEx { listenErr := none, serveErr := none }
    ctxEx reqAEx reqDEx metricsEx
  exact h.1.mpr ⟨rfl, rfl⟩

theorem shutdownStep_not_notified (st : ProcessState) (sig : OSSignal)
    (h : notifiedSignal sig = false) : shutdownStep st sig = st := by
  simp [shutdownStep, h]

theorem shutdownStep_unarmed (st : ProcessState) (sig : OSSignal)
    (h : st.listenerArmed = false) : shutdownStep st sig = st := by
  simp [shutdownStep, h]

theorem runSignals_unarmed (st : ProcessState) (sigs : List OSSignal)
    (h : st.listenerArmed = false) : runSignals st sigs = st := by
  induction sigs with
  | nil => rfl
  | cons x xs ih =>
    show runSignals (shutdownStep st x) xs = st
    rw [shutdownStep_unarmed st x h]
    exact ih

theorem runSignals_not_notified (st : ProcessState) :
    ∀ sigs : List OSSignal,
      (∀ x ∈ sigs, notifiedSignal x = false) → runSignals st sigs = st := by
  intro sigs
  induction sigs with
  | nil => intro _; rfl
  | cons x xs ih =>
    intro h
    show runSignals (shutdownStep st x) xs = st
    rw [shutdownStep_not_notified st x (h x (by simp))]
    exact ih (fun y hy => h y (by simp [hy]))

/-- C6: starting from the armed, non-terminating state, the Termination
State is still `false` after any sequence of signals the listener is not
subscribed to, becomes `true` at the first interrupt or termination signal,
and any signals delivered after that cause no further change: the listener
received once and is no longer armed. -/
theorem shutdown_one_shot (srv : GrpcServerState) (pre post : List OSSignal)
    (sig : OSSignal)
    (hpre : ∀ x ∈ pre, notifiedSignal x = false)
    (hsig : notifiedSignal sig = true) :
    (runSignals (initProcess srv) pre).terminating = false ∧
    (runSignals (initProcess srv) (pre ++ sig :: post)).terminating = true ∧
    runSignals (initProcess srv) (pre ++ sig :: post) =
      runSignals (initProcess srv) (pre ++ [sig]) ∧
    (runSignals (initProcess srv) (pre ++ [sig])).listenerArmed = false := by
  have hpre' : runSignals (initProcess srv) pre = initProcess srv :=
    runSignals_not_notified _ pre hpre
  have hstep : shutdownStep (initProcess srv) sig =
      { listenerArmed := false, terminating := true, server := srv } := by
    simp [shutdownStep, hsig, setTerminating, initProcess]
  have happ : ∀ l2 : List OSSignal,
      runSignals (initProcess srv) (pre ++ l2) =
        runSignals (initProcess srv) l2 := by
    intro l2
    show List.foldl shutdownStep (initProcess srv) (pre ++ l2) = _
    rw [List.foldl_append]
    show runSignals (runSignals (initProcess srv) pre) l2 = _
    rw [hpre']
  have hterm : runSignals (initProcess srv) (sig :: post) =
      { listenerArmed := false, terminating := true, server := srv } := by
    show runSignals (shutdownStep (initProcess srv) sig) post = _
    rw [hstep]
    exact runSignals_unarmed _ post rfl
  have hsingle : runSignals (initProcess srv) [sig] =
      { listenerArmed := false, terminating := true, server := srv } := by
    show runSignals (shutdownStep (initProcess srv) sig) [] = _
    rw [hstep]
    rfl
  refine ⟨by rw [hpre']; rfl, ?_, ?_, ?_⟩
  · rw [happ (sig :: post), hterm]
  · rw [happ (sig :: post), hterm, happ [sig], hsingle]
  · rw [happ [sig], hsingle]

/-- Witness for C6: no prefix, a SIGTERM, then a further SIGINT that changes
nothing. -/
theorem shutdown_one_shot_witness :
    (runSignals (initProcess srvEx) []).terminating = false ∧
    (runSignals (initProcess srvEx)
        ([] ++ OSSignal.SIGTERM :: [OSSignal.SIGINT])).terminating = true ∧
    runSignals (initProcess srvEx)
        ([] ++ OSSignal.SIGTERM :: [OSSignal.SIGINT]) =
      runSignals (initProcess srvEx) ([] ++ [OSSignal.SIGTERM]) ∧
    (runSignals (initProcess srvEx)
        ([] ++ [OSSignal.SIGTERM])).listenerArmed = false :=
  shutdown_one_shot srvEx [] [OSSignal.SIGINT] OSSignal.SIGTERM
    (by simp) rfl

/-- C7: a signal step never mutates the gRPC server state the listener holds
(no stop, no drain, in-flight calls untouched), and on the
running-to-terminating transition it sets the Termination State to `true`. -/
theorem shutdown_frame (st : ProcessState) (sig : OSSignal) :
    (shutdownStep st sig).server = st.server ∧
    (st.listenerArmed = true → notifiedSignal sig = true →
      (shutdownStep st sig).terminating = true ∧
      (shutdownStep st sig).server.serving = st.server.serving ∧
      (shutdownStep st sig).server.inFlightCalls =
        st.server.inFlightCalls) := by
  constructor
  · unfold shutdownStep
    split <;> rfl
  · intro h1 h2
    simp [shutdownStep, h1, h2, setTerminating]

/-- Witness for C7: a SIGINT received in the armed state flips the flag and
leaves the serving server and its in-flight calls as they were. -/
theorem shutdown_frame_witness :
    (shutdownStep (initProcess srvEx) OSSignal.SIGINT).server =
      (initProcess srvEx).server ∧
    (shutdownStep (initProcess srvEx) OSSignal.SIGINT).terminating = true := by
  have h := shutdown_frame (initProcess srvEx) OSSignal.SIGINT
  exact ⟨h.1, (h.2 rfl rfl).1⟩
